import Mathlib

/-!
Verification development for the MOEX pair-trading screener.

The repository ships the React/TypeScript frontend of the screener
(`frontend/src/api/client.ts`, `frontend/src/components/*`, page files)
together with build and planning material.  The Python analytics engine
(pair metrics calculator, tradeability classifier, signal state machine,
pair registry) is not part of the shipped sources; where a property is
decided by that engine we model the missing component from the design
document and say so in the doc comment of each such definition.

Numeric values are embedded as rationals (`ℚ`); the half-life formula,
which involves real logarithms, lives in `ℝ`.
-/

namespace Screener

/-- The `PairMetrics` record exchanged with the API, following the
`PairMetrics` interface of `frontend/src/api/client.ts` (timestamps kept
as strings as in the source). -/
structure PairMetrics where
  symbol1 : String
  symbol2 : String
  correlation : ℚ
  is_cointegrated : Bool
  cointegration_pvalue : ℚ
  hedge_ratio : ℚ
  spread_mean : ℚ
  spread_std : ℚ
  current_zscore : ℚ
  half_life : ℚ
  hurst_exponent : ℚ
  last_updated : String
  is_tradeable : Bool
  deriving DecidableEq, Repr

/-- The `Settings` record served by `/api/settings`, following the
`Settings` interface of `frontend/src/api/client.ts`; the default values
are the fallbacks shown on the Settings page (entry 2.0, exit 0.0,
stop-loss 3.0, lookback 60, spread window 20). -/
structure Settings where
  entry_threshold : ℚ := 2
  exit_threshold : ℚ := 0
  stop_loss_threshold : ℚ := 3
  lookback_period : ℕ := 60
  spread_window : ℕ := 20
  deriving DecidableEq, Repr

/-- The default thresholds of the design document and of the Settings
page fallbacks. -/
def defaultSettings : Settings := {}

/-- The `Instrument` record of `frontend/src/api/client.ts` (the two
numeric fields are nullable there and irrelevant here, kept as options). -/
structure Instrument where
  secid : String
  shortname : String
  prevprice : Option ℚ := none
  lotsize : Option ℚ := none
  deriving DecidableEq, Repr

/-! ### PairsTable signal column (C10)

`frontend/src/components/PairsTable.tsx` computes the Signal column with
`getZScoreLabel` and colours the chip inline; both use literal bounds. -/

/-- `getZScoreLabel` from `PairsTable.tsx`: the thresholds are optional
parameters defaulting to `2` and `-2`. -/
def getZScoreLabel (zscore : ℚ) (upperThreshold : ℚ := 2)
    (lowerThreshold : ℚ := -2) : String :=
  if zscore ≥ upperThreshold then "SHORT"
  else if zscore ≤ lowerThreshold then "LONG"
  else "NEUTRAL"

/-- The Signal-column label as the table renders it:
`getZScoreLabel(pair.current_zscore)` with no threshold arguments, hence
the defaults `±2`. -/
def pairsTableSignalLabel (pair : PairMetrics) : String :=
  getZScoreLabel pair.current_zscore

/-- The chip colour of the Signal column, inlined in `PairsTable.tsx`:
`error` when `current_zscore >= 2`, `success` when `<= -2`, otherwise
`default`. -/
def pairsTableSignalColor (pair : PairMetrics) : String :=
  if pair.current_zscore ≥ 2 then "error"
  else if pair.current_zscore ≤ -2 then "success"
  else "default"

/-! ### PairAnalyzer and Charts symbol selection (C9) -/

/-- Outcome of the analyze-button handler: either an error message shown
in the alert, or a call of the analyze mutation with two symbol strings. -/
inductive AnalyzeAction where
  | showError (msg : String)
  | mutate (s1 s2 : String)
  deriving DecidableEq, Repr

/-- `handleAnalyze` from `frontend/src/components/PairAnalyzer.tsx`:
with a symbol missing it errors, with equal `secid`s it errors, and
only otherwise does it invoke `analyzeMutation.mutate`. -/
def handleAnalyze (symbol1 symbol2 : Option Instrument) : AnalyzeAction :=
  match symbol1, symbol2 with
  | some i1, some i2 =>
      if i1.secid = i2.secid then .showError "Please select different symbols"
      else .mutate i1.secid i2.secid
  | _, _ => .showError "Please select both symbols"

/-- The option list of the Symbol 2 autocomplete in `PairAnalyzer.tsx`:
`instruments.filter((i) => i.secid !== symbol1?.secid)`; with no symbol 1
selected the comparison against `undefined` keeps every instrument. -/
def analyzerSymbol2Options (instruments : List Instrument)
    (symbol1 : Option Instrument) : List Instrument :=
  match symbol1 with
  | some s1 => instruments.filter (fun i => i.secid ≠ s1.secid)
  | none => instruments

/-- The hard-coded fallback menu of the Charts page symbol selects,
rendered when no active pairs supply symbols. -/
def chartsFallbackSymbols : List String :=
  ["SBER", "SBERP", "GAZP", "LKOH", "ROSN", "VTBR"]

/-- The option list of the Symbol 2 select on the Charts page
(`pages/Charts.tsx`): `symbols.filter((s) => s !== symbol1)` when the
active-pairs symbol list is non-empty, otherwise the unfiltered
hard-coded fallback menu. -/
def chartsSymbol2Options (symbols : List String) (symbol1 : String) :
    List String :=
  if symbols.length > 0 then symbols.filter (fun s => s ≠ symbol1)
  else chartsFallbackSymbols

/-! ### The client's analyzePair request (C8)

`api.analyzePair` in `frontend/src/api/client.ts` posts to
`/api/pairs/analyze` with query parameters `symbol1`, `symbol2`, `days`
(third positional parameter, default `90`).  The Charts page and the
Pairs page nevertheless pass `true` / `false` in that third slot,
commented `force_refresh`. -/

/-- A JavaScript value sent as a query parameter. -/
inductive QueryVal where
  | str (s : String)
  | num (n : ℚ)
  | jsbool (b : Bool)
  deriving DecidableEq, Repr

/-- The query parameters built by `api.analyzePair(symbol1, symbol2,
days = 90)` in `client.ts`: the third positional argument is passed on
verbatim under the key `days`. -/
def analyzePairParams (symbol1 symbol2 : String)
    (days : QueryVal := .num 90) : List (String × QueryVal) :=
  [("symbol1", .str symbol1), ("symbol2", .str symbol2), ("days", days)]

/-- The request issued by the Charts page refresh mutation:
`api.analyzePair(symbol1, symbol2, true)`, commented `force_refresh=true`
in `pages/Charts.tsx`. -/
def chartsRefreshParams (symbol1 symbol2 : String) :
    List (String × QueryVal) :=
  analyzePairParams symbol1 symbol2 (.jsbool true)

/-- The request issued by the Pairs page table analyze action:
`api.analyzePair(s1, s2, true)`, commented force re-analyze, in
`pages/Pairs.tsx`. -/
def pairsAnalyzeParams (s1 s2 : String) : List (String × QueryVal) :=
  analyzePairParams s1 s2 (.jsbool true)

/-! ### Signal state machine (modelled)

The Python signal generator is not among the shipped sources; only its
HTTP surface (`api.generateSignal`, the `Signal` interface) and the
Settings page describing entry/exit/stop-loss thresholds are.  The
transition function below is modelled from the design document. -/

/-- Per-pair signal state; the design document fixes the states
`FLAT`, `LONG_SPREAD`, `SHORT_SPREAD` with initial state `FLAT`. -/
inductive PairState where
  | FLAT
  | LONG_SPREAD
  | SHORT_SPREAD
  deriving DecidableEq, Repr

/-- The closed enumeration of signal types; the `Signal` interface of
`client.ts` carries them as strings, the design document fixes the five
variants. -/
inductive SignalType where
  | LONG_SPREAD
  | SHORT_SPREAD
  | EXIT_LONG
  | EXIT_SHORT
  | STOP_LOSS
  deriving DecidableEq, Repr

/-- Modelled from the spec: the Signal State Machine transition
function (the Python signal generator is absent from the sources).
From `FLAT`, a tradeable pair enters long on `zscore ≤ -entry_threshold`
and short on `zscore ≥ +entry_threshold`.  From an open state the
stop-loss check `|zscore| ≥ stop_loss_threshold` is performed first,
taking priority over the exit check when both could fire in the same
step; otherwise a long exits on `zscore ≥ exit_threshold` and a short
exits on `zscore ≤ exit_threshold`.  Anything else is a no-op. -/
def step (st : PairState) (zscore : ℚ) (tradeable : Bool)
    (s : Settings) : PairState × Option SignalType :=
  match st with
  | .FLAT =>
      if tradeable ∧ zscore ≤ -s.entry_threshold then
        (.LONG_SPREAD, some .LONG_SPREAD)
      else if tradeable ∧ zscore ≥ s.entry_threshold then
        (.SHORT_SPREAD, some .SHORT_SPREAD)
      else (.FLAT, none)
  | .LONG_SPREAD =>
      if |zscore| ≥ s.stop_loss_threshold then (.FLAT, some .STOP_LOSS)
      else if zscore ≥ s.exit_threshold then (.FLAT, some .EXIT_LONG)
      else (.LONG_SPREAD, none)
  | .SHORT_SPREAD =>
      if |zscore| ≥ s.stop_loss_threshold then (.FLAT, some .STOP_LOSS)
      else if zscore ≤ s.exit_threshold then (.FLAT, some .EXIT_SHORT)
      else (.SHORT_SPREAD, none)

/-! ### Tradeability classifier (modelled)

The Python classifier is absent from the sources; the default criteria
are those listed in the design document and on the Settings page
("Tradeable Pair Criteria": correlation ≥ 70 %, p-value ≤ 0.05,
half-life ≤ 30 days, Hurst < 0.5). -/

/-- Modelled from the spec: the policy object of the Tradeability
Classifier, one configurable threshold per criterion, defaulting to the
documented values. -/
structure TradeabilityPolicy where
  min_correlation : ℚ := mkRat 7 10
  pvalue_threshold : ℚ := mkRat 1 20
  half_life_max : ℚ := 30
  hurst_max : ℚ := mkRat 1 2
  deriving DecidableEq, Repr

/-- The default policy of the design document. -/
def defaultPolicy : TradeabilityPolicy := {}

/-- Modelled from the spec: `classify(metrics, policy)` — tradeable iff
cointegrated and `|correlation| ≥ min_correlation` and
`cointegration_pvalue ≤ pvalue_threshold` (inclusive) and
`half_life ≤ half_life_max` and `hurst_exponent < hurst_max`. -/
def classify (m : PairMetrics) (p : TradeabilityPolicy) : Bool :=
  m.is_cointegrated
    && decide (|m.correlation| ≥ p.min_correlation)
    && decide (m.cointegration_pvalue ≤ p.pvalue_threshold)
    && decide (m.half_life ≤ p.half_life_max)
    && decide (m.hurst_exponent < p.hurst_max)

/-- A pair meeting every default criterion with the p-value exactly at
the inclusive 0.05 bound. -/
def boundaryMetricsAtBound : PairMetrics :=
  { symbol1 := "SBER", symbol2 := "SBERP", correlation := mkRat 9 10,
    is_cointegrated := true, cointegration_pvalue := mkRat 1 20,
    hedge_ratio := 1, spread_mean := 0, spread_std := 1,
    current_zscore := 0, half_life := 5, hurst_exponent := mkRat 2 5,
    last_updated := "t", is_tradeable := true }

/-- The same pair with the p-value nudged to 0.0501, just over the
bound. -/
def boundaryMetricsOverBound : PairMetrics :=
  { boundaryMetricsAtBound with cointegration_pvalue := mkRat 501 10000 }

/-! ### Pair metrics calculator: insufficient data (modelled) -/

/-- The recoverable failures of the Pair Metrics Calculator named by the
design document. -/
inductive CalcError where
  | insufficientData
  | degenerateRegression
  | dataUnavailable
  deriving DecidableEq, Repr

/-- Modelled from the spec: the pending metrics record, correlation and
cointegration flags at their neutral defaults (0 / false) and
`is_tradeable = false`; the p-value rests at the neutral 1 and the other
numeric fields at 0. -/
def pendingMetrics (symbol1 symbol2 : String) : PairMetrics :=
  { symbol1 := symbol1, symbol2 := symbol2, correlation := 0,
    is_cointegrated := false, cointegration_pvalue := 1,
    hedge_ratio := 0, spread_mean := 0, spread_std := 0,
    current_zscore := 0, half_life := 0, hurst_exponent := 0,
    last_updated := "", is_tradeable := false }

/-- Modelled from the spec: the inner calculator fails with
`InsufficientDataError` when fewer than `lookback_period` aligned points
exist, and otherwise runs the full metrics computation (abstracted here
as the `computeFull` argument). -/
def computeRaw (computeFull : List (ℚ × ℚ) → PairMetrics)
    (aligned : List (ℚ × ℚ)) (lookback : ℕ) :
    Except CalcError PairMetrics :=
  if aligned.length < lookback then .error .insufficientData
  else .ok (computeFull aligned)

/-- Modelled from the spec: the calculator surface absorbs the
`InsufficientDataError` (and the other recoverable errors) into a
pending metrics record instead of raising. -/
def computeOrPending (computeFull : List (ℚ × ℚ) → PairMetrics)
    (symbol1 symbol2 : String) (aligned : List (ℚ × ℚ))
    (lookback : ℕ) : PairMetrics :=
  match computeRaw computeFull aligned lookback with
  | .ok m => m
  | .error _ => pendingMetrics symbol1 symbol2

/-- From `pages/Pairs.tsx`: the dashboard counts a pair as analyzed
(not pending) through `p.correlation !== 0 || p.is_cointegrated`. -/
def isAnalyzedPair (p : PairMetrics) : Bool :=
  decide (p.correlation ≠ 0) || p.is_cointegrated

/-! ### Half-life of mean reversion (modelled) -/

/-- Modelled from the spec: the AR(1) fit of the half-life step of the
absent calculator, `Δspread_t = θ · spread_{t-1} + ε`, with `θ` the
no-intercept least-squares slope of the consecutive differences on the
lagged spread levels (0 on a degenerate series). -/
def fitTheta (s : List ℚ) : ℚ :=
  let pairs := s.zip s.tail
  let den := (pairs.map (fun p => p.1 * p.1)).sum
  if den = 0 then 0
  else (pairs.map (fun p => p.1 * (p.2 - p.1))).sum / den

/-- Modelled from the spec: the value reported in place of `+∞` when the
spread shows no mean reversion; the consuming frontend renders any
half-life that is not `< 999` as the infinity glyph. -/
def halfLifeSentinel : ℝ := 999

/-- Modelled from the spec: the reported half-life,
`-ln 2 / ln (1 + θ)` when the fitted `θ` is negative and the `+∞`
sentinel otherwise. -/
noncomputable def halfLife (s : List ℚ) : ℝ :=
  if fitTheta s < 0 then
    -Real.log 2 / Real.log (1 + (fitTheta s : ℝ))
  else halfLifeSentinel

/-- The half-life cell of `PairsTable.tsx` and of the analysis summary
in `PairAnalyzer.tsx`: a value `half_life < 999` is rendered as a number
of days, anything else as the infinity glyph. -/
def rendersAsInfinity (half_life : ℝ) : Prop := ¬ half_life < 999

/-! ### Pair registry (modelled) -/

/-- The position side, the closed enumeration of the design document
(`position_type` travels as a string in `client.ts`). -/
inductive PositionType where
  | LONG_SPREAD
  | SHORT_SPREAD
  deriving DecidableEq, Repr

/-- The `Position` record, following the `Position` interface of
`frontend/src/api/client.ts` restricted to the fields the design
document gives the registry (the live-quote fields of the frontend view
are derived display data). -/
structure Position where
  pair_key : String
  symbol1 : String
  symbol2 : String
  position_type : PositionType
  entry_zscore : ℚ
  entry_price1 : Option ℚ
  entry_price2 : Option ℚ
  opened_at : String
  deriving DecidableEq, Repr

/-- The `Signal` record, following the `Signal` interface of
`frontend/src/api/client.ts` (`signal_type` travels as a string there;
here it is the closed enumeration). -/
structure Signal where
  signal_type : SignalType
  symbol1 : String
  symbol2 : String
  zscore : ℚ
  hedge_ratio : ℚ
  strength : String
  confidence : ℚ
  entry_price1 : Option ℚ
  entry_price2 : Option ℚ
  target_zscore : ℚ
  stop_loss_zscore : ℚ
  timestamp : String
  deriving DecidableEq, Repr

/-- The registry failure modes named by the design document. -/
inductive RegistryError where
  | positionAlreadyOpen
  | noOpenPosition
  | unknownPair
  deriving DecidableEq, Repr

/-- Modelled from the spec: the order-normalized pair key
(lexicographically sorted symbols). -/
def pairKey (s1 s2 : String) : String :=
  if s1 ≤ s2 then s1 ++ "_" ++ s2 else s2 ++ "_" ++ s1

/-- Modelled from the spec: the Pair Registry — the authoritative map
from pair key to metrics, the append-only signal history, and the open
positions (the absent Python registry is the component being modelled). -/
structure Registry where
  metrics : List (String × PairMetrics)
  signals : List Signal
  positions : List Position
  deriving DecidableEq, Repr

/-- The central invariant of the lifecycle: at most one open position
per pair, i.e. the open positions carry pairwise distinct pair keys. -/
abbrev PositionsInv (r : Registry) : Prop :=
  (r.positions.map Position.pair_key).Nodup

/-- Modelled from the spec: `upsertMetrics` replaces the metrics stored
under the key or inserts a fresh entry. -/
def upsertMetrics (r : Registry) (key : String) (m : PairMetrics) :
    Registry :=
  if r.metrics.any (fun kv => decide (kv.1 = key)) then
    { r with metrics :=
        r.metrics.map (fun kv => if kv.1 = key then (key, m) else kv) }
  else { r with metrics := (key, m) :: r.metrics }

/-- Modelled from the spec: `appendSignal` prepends to the append-only
history (most recent first, as `getSignals` returns it). -/
def appendSignal (r : Registry) (sig : Signal) : Registry :=
  { r with signals := sig :: r.signals }

/-- Modelled from the spec: `openPosition` fails with
`PositionAlreadyOpenError` when a position with the same pair key is
already open, and otherwise records the new position. -/
def openPosition (r : Registry) (p : Position) :
    Except RegistryError Registry :=
  if r.positions.any (fun q => decide (q.pair_key = p.pair_key)) then
    .error .positionAlreadyOpen
  else .ok { r with positions := p :: r.positions }

/-- Modelled from the spec: `closePosition` fails with
`NoOpenPositionError` when no position is open for the pair, and
otherwise removes it. -/
def closePosition (r : Registry) (s1 s2 : String) :
    Except RegistryError Registry :=
  if r.positions.any (fun q => decide (q.pair_key = pairKey s1 s2)) then
    .ok { r with positions :=
        r.positions.filter (fun q => decide (q.pair_key ≠ pairKey s1 s2)) }
  else .error .noOpenPosition

/-- Modelled from the spec: `removePair` deletes all state held for the
pair (no-op on an unknown pair in non-strict mode). -/
def removePair (r : Registry) (s1 s2 : String) : Registry :=
  { metrics := r.metrics.filter (fun kv => decide (kv.1 ≠ pairKey s1 s2)),
    signals := r.signals.filter
      (fun sig => decide (pairKey sig.symbol1 sig.symbol2 ≠ pairKey s1 s2)),
    positions :=
      r.positions.filter (fun q => decide (q.pair_key ≠ pairKey s1 s2)) }

end Screener

namespace Screener

/-- C1: from `LONG_SPREAD`, any z-score with
`|zscore| ≥ stop_loss_threshold` makes `step` emit `STOP_LOSS` and
transition to `FLAT`; it never emits `EXIT_LONG` there, the stop-loss
check taking priority over the exit check. -/
theorem step_long_stop_loss_priority (zscore : ℚ) (tradeable : Bool)
    (s : Settings) (hstop : |zscore| ≥ s.stop_loss_threshold) :
    step .LONG_SPREAD zscore tradeable s = (.FLAT, some .STOP_LOSS) ∧
    (step .LONG_SPREAD zscore tradeable s).2 ≠ some .EXIT_LONG := by
  simp [step, hstop]

/-- C1 witness: with the default thresholds, `zscore = 3.5` from
`LONG_SPREAD` satisfies both the exit condition (`3.5 ≥ 0`) and the
stop-loss condition, and the step yields `STOP_LOSS` into `FLAT`. -/
theorem step_long_stop_loss_priority_witness :
    mkRat 7 2 ≥ defaultSettings.exit_threshold ∧
    |mkRat 7 2| ≥ defaultSettings.stop_loss_threshold ∧
    step .LONG_SPREAD (mkRat 7 2) true defaultSettings =
      (.FLAT, some .STOP_LOSS) :=
  ⟨by decide, by decide,
    (step_long_stop_loss_priority (mkRat 7 2) true defaultSettings
      (by decide)).1⟩

/-- C2: from `FLAT` with tradeable metrics and a positive entry
threshold, `step` enters long on `zscore ≤ -entry_threshold`, enters
short on `zscore ≥ entry_threshold`, and is a no-op strictly in between;
moreover with the default thresholds the concrete run of the spec holds:
`FLAT` fed `-2.5` yields a `LONG_SPREAD` signal into state
`LONG_SPREAD`, and fed `0.1` next yields `EXIT_LONG` into `FLAT`. -/
theorem step_flat_entries (zscore : ℚ) (s : Settings)
    (hpos : 0 < s.entry_threshold) :
    (zscore ≤ -s.entry_threshold →
      step .FLAT zscore true s = (.LONG_SPREAD, some .LONG_SPREAD)) ∧
    (zscore ≥ s.entry_threshold →
      step .FLAT zscore true s = (.SHORT_SPREAD, some .SHORT_SPREAD)) ∧
    (-s.entry_threshold < zscore → zscore < s.entry_threshold →
      step .FLAT zscore true s = (.FLAT, none)) ∧
    step .FLAT (mkRat (-5) 2) true defaultSettings =
      (.LONG_SPREAD, some .LONG_SPREAD) ∧
    step .LONG_SPREAD (mkRat 1 10) true defaultSettings =
      (.FLAT, some .EXIT_LONG) := by
  refine ⟨?_, ?_, ?_, by decide, by decide⟩
  · intro h; simp [step, h]
  · intro h
    have hnl : ¬ zscore ≤ -s.entry_threshold := by
      simp only [ge_iff_le] at h
      intro hc; linarith
    simp [step, hnl, h]
  · intro hl hu
    have hnl : ¬ zscore ≤ -s.entry_threshold := not_le.mpr hl
    have hnu : ¬ zscore ≥ s.entry_threshold := not_le.mpr hu
    simp [step, hnl, hnu]

/-- C2 witness: the general entry clauses instantiated with the default
thresholds at `zscore = -2.5`, plus the concrete two-step run. -/
theorem step_flat_entries_witness :
    step .FLAT (mkRat (-5) 2) true defaultSettings =
      (.LONG_SPREAD, some .LONG_SPREAD) ∧
    step .LONG_SPREAD (mkRat 1 10) true defaultSettings =
      (.FLAT, some .EXIT_LONG) ∧
    step .FLAT (mkRat (-5) 2) true defaultSettings =
      (.LONG_SPREAD, some .LONG_SPREAD) :=
  ⟨(step_flat_entries (mkRat (-5) 2) defaultSettings (by decide)).2.2.2.1,
   (step_flat_entries (mkRat (-5) 2) defaultSettings (by decide)).2.2.2.2,
   (step_flat_entries (mkRat (-5) 2) defaultSettings (by decide)).1 (by decide)⟩

/-- C4: the default policy classifies a pair tradeable iff it is
cointegrated and `|correlation| ≥ 0.70` and `cointegration_pvalue ≤
0.05` and `half_life ≤ 30` and `hurst_exponent < 0.5`; the p-value bound
is inclusive: with every other criterion met, `pvalue = 0.05` is
tradeable and `0.0501` is not. -/
theorem classify_default_criteria (m : PairMetrics) :
    (classify m defaultPolicy = true ↔
      (m.is_cointegrated = true ∧ |m.correlation| ≥ mkRat 7 10 ∧
       m.cointegration_pvalue ≤ mkRat 1 20 ∧ m.half_life ≤ 30 ∧
       m.hurst_exponent < mkRat 1 2)) ∧
    classify boundaryMetricsAtBound defaultPolicy = true ∧
    classify boundaryMetricsOverBound defaultPolicy = false := by
  refine ⟨?_, by decide, by decide⟩
  simp [classify, defaultPolicy, and_assoc]

/-- C5: a spread series whose fitted `θ` is negative reports the
half-life `-ln 2 / ln (1 + θ)`; a series with `θ ≥ 0` reports the `+∞`
sentinel, a non-negative number the consuming frontend renders as the
infinity glyph (any half-life not `< 999`). -/
theorem halfLife_of_fit (s : List ℚ) :
    (fitTheta s < 0 →
      halfLife s = -Real.log 2 / Real.log (1 + (fitTheta s : ℝ))) ∧
    (0 ≤ fitTheta s →
      halfLife s = halfLifeSentinel ∧ ¬ halfLife s < 0 ∧
      rendersAsInfinity (halfLife s)) := by
  constructor
  · intro h
    simp [halfLife, h]
  · intro h
    have hn : ¬ fitTheta s < 0 := not_lt.mpr h
    refine ⟨by simp [halfLife, hn], ?_, ?_⟩ <;>
      simp [halfLife, hn, halfLifeSentinel, rendersAsInfinity]

/-- C5 witness: the strictly decaying spread `[2, 1]` fits
`θ = -1/2 < 0` and reports the logarithmic half-life, while the
expanding spread `[1, 2]` fits `θ = 1 ≥ 0` and reports the sentinel the
frontend renders as infinity. -/
theorem halfLife_of_fit_witness :
    (fitTheta [2, 1] < 0 ∧
      halfLife [2, 1] =
        -Real.log 2 / Real.log (1 + (fitTheta [2, 1] : ℝ))) ∧
    (0 ≤ fitTheta [1, 2] ∧ halfLife [1, 2] = halfLifeSentinel ∧
      ¬ halfLife [1, 2] < 0 ∧ rendersAsInfinity (halfLife [1, 2])) :=
  ⟨⟨by norm_num [fitTheta],
    (halfLife_of_fit [2, 1]).1 (by norm_num [fitTheta])⟩,
   ⟨by norm_num [fitTheta],
    (halfLife_of_fit [1, 2]).2 (by norm_num [fitTheta])⟩⟩

/-- C3: the registry keeps at most one open position per pair:
`openPosition` fails with `PositionAlreadyOpenError` exactly when a
position with that pair key is open (so a second open without an
intervening close fails), `closePosition` fails with
`NoOpenPositionError` exactly when none is open, and every registry
operation preserves the distinct-pair-keys invariant. -/
theorem registry_at_most_one_open_position
    (r : Registry) (p p2 : Position) (s1 s2 key : String)
    (m : PairMetrics) (sig : Signal) (hinv : PositionsInv r) :
    ((∃ q ∈ r.positions, q.pair_key = p.pair_key) ↔
      openPosition r p = .error .positionAlreadyOpen) ∧
    ((∀ q ∈ r.positions, q.pair_key ≠ pairKey s1 s2) ↔
      closePosition r s1 s2 = .error .noOpenPosition) ∧
    (∀ r1, openPosition r p = .ok r1 → PositionsInv r1 ∧
      (p2.pair_key = p.pair_key →
        openPosition r1 p2 = .error .positionAlreadyOpen)) ∧
    (∀ r1, closePosition r s1 s2 = .ok r1 → PositionsInv r1) ∧
    PositionsInv (upsertMetrics r key m) ∧
    PositionsInv (appendSignal r sig) ∧
    PositionsInv (removePair r s1 s2) := by
  refine ⟨?_, ?_, ?_, ?_, ?_, hinv, ?_⟩
  · constructor
    · rintro ⟨q, hq, hk⟩
      have hany : r.positions.any
          (fun q => decide (q.pair_key = p.pair_key)) = true :=
        List.any_eq_true.mpr ⟨q, hq, by simp [hk]⟩
      simp [openPosition, hany]
    · intro h
      by_cases hany : r.positions.any
          (fun q => decide (q.pair_key = p.pair_key)) = true
      · obtain ⟨q, hq, hk⟩ := List.any_eq_true.mp hany
        exact ⟨q, hq, by simpa using hk⟩
      · simp [openPosition, hany] at h
  · constructor
    · intro h
      have hany : ¬ r.positions.any
          (fun q => decide (q.pair_key = pairKey s1 s2)) = true := by
        intro hc
        obtain ⟨q, hq, hk⟩ := List.any_eq_true.mp hc
        exact h q hq (by simpa using hk)
      simp [closePosition, hany]
    · intro h q hq hk
      have hany : r.positions.any
          (fun q => decide (q.pair_key = pairKey s1 s2)) = true :=
        List.any_eq_true.mpr ⟨q, hq, by simp [hk]⟩
      simp [closePosition, hany] at h
  · intro r1 hok
    by_cases hany : r.positions.any
        (fun q => decide (q.pair_key = p.pair_key)) = true
    · simp [openPosition, hany] at hok
    · rw [Bool.not_eq_true] at hany
      simp only [openPosition, hany, Bool.false_eq_true, if_false,
        Except.ok.injEq] at hok
      subst hok
      constructor
      · refine List.nodup_cons.mpr ⟨?_, hinv⟩
        intro hmem
        obtain ⟨q, hq, hk⟩ := List.mem_map.mp hmem
        have : r.positions.any
            (fun q => decide (q.pair_key = p.pair_key)) = true :=
          List.any_eq_true.mpr ⟨q, hq, by simp [hk]⟩
        simp [hany] at this
      · intro hkey
        have hhd : decide (p.pair_key = p2.pair_key) = true := by
          simp [hkey]
        simp [openPosition, List.any_cons, hhd]
  · intro r1 hok
    by_cases hany : r.positions.any
        (fun q => decide (q.pair_key = pairKey s1 s2)) = true
    · simp only [closePosition, hany, if_true, Except.ok.injEq] at hok
      subst hok
      exact List.Nodup.sublist
        ((List.filter_sublist _).map Position.pair_key) hinv
    · simp [closePosition, hany] at hok
  · unfold upsertMetrics
    split <;> exact hinv
  · exact List.Nodup.sublist
      ((List.filter_sublist _).map Position.pair_key) hinv

/-- A concrete long-spread position on SBER/SBERP used to exercise the
registry. -/
def demoPosition : Position :=
  { pair_key := "SBER_SBERP", symbol1 := "SBER", symbol2 := "SBERP",
    position_type := .LONG_SPREAD, entry_zscore := mkRat (-5) 2,
    entry_price1 := none, entry_price2 := none, opened_at := "t0" }

/-- A concrete entry signal matching `demoPosition`. -/
def demoSignal : Signal :=
  { signal_type := .LONG_SPREAD, symbol1 := "SBER", symbol2 := "SBERP",
    zscore := mkRat (-5) 2, hedge_ratio := 1, strength := "WEAK",
    confidence := mkRat 1 2, entry_price1 := none, entry_price2 := none,
    target_zscore := 0, stop_loss_zscore := 3, timestamp := "t0" }

/-- A concrete metrics record for the demo pair. -/
def demoMetrics : PairMetrics :=
  { symbol1 := "SBER", symbol2 := "SBERP", correlation := mkRat 9 10,
    is_cointegrated := true, cointegration_pvalue := mkRat 1 100,
    hedge_ratio := 1, spread_mean := 0, spread_std := 1,
    current_zscore := mkRat (-5) 2, half_life := 5,
    hurst_exponent := mkRat 2 5, last_updated := "t0",
    is_tradeable := true }

/-- The empty registry. -/
def demoRegistry : Registry :=
  { metrics := [], signals := [], positions := [] }

/-- The registry after opening `demoPosition`. -/
def demoOpenedRegistry : Registry :=
  { metrics := [], signals := [], positions := [demoPosition] }

/-- C3 witness: opening a position on the empty registry succeeds and
keeps the invariant, and a second `openPosition` for the same pair
without an intervening close fails with `PositionAlreadyOpenError`. -/
theorem registry_at_most_one_open_position_witness :
    PositionsInv demoOpenedRegistry ∧
    openPosition demoOpenedRegistry demoPosition =
      .error .positionAlreadyOpen :=
  ((registry_at_most_one_open_position demoRegistry demoPosition
      demoPosition "SBER" "SBERP" "SBER_SBERP" demoMetrics demoSignal
      (by decide)).2.2.1 demoOpenedRegistry rfl).imp id (fun h => h rfl)

/-- C7: with fewer aligned observations than the lookback period the
calculator does not raise: the inner computation fails with
`InsufficientDataError`, the surface absorbs it into the pending record
whose correlation is the neutral 0, `is_cointegrated` and `is_tradeable`
are false, and the frontend's analyzed-pair filter classifies the result
as pending. -/
theorem computeOrPending_insufficient_data
    (computeFull : List (ℚ × ℚ) → PairMetrics) (symbol1 symbol2 : String)
    (aligned : List (ℚ × ℚ)) (lookback : ℕ)
    (hshort : aligned.length < lookback) :
    computeRaw computeFull aligned lookback =
      .error .insufficientData ∧
    computeOrPending computeFull symbol1 symbol2 aligned lookback =
      pendingMetrics symbol1 symbol2 ∧
    (pendingMetrics symbol1 symbol2).correlation = 0 ∧
    (pendingMetrics symbol1 symbol2).is_cointegrated = false ∧
    (pendingMetrics symbol1 symbol2).is_tradeable = false ∧
    isAnalyzedPair
      (computeOrPending computeFull symbol1 symbol2 aligned lookback) =
      false := by
  refine ⟨?_, ?_, rfl, rfl, rfl, ?_⟩ <;>
    simp [computeRaw, computeOrPending, isAnalyzedPair, pendingMetrics,
      hshort]

/-- C7 witness: an empty aligned series against the default lookback of
60 yields the pending record for the pair. -/
theorem computeOrPending_insufficient_data_witness :
    computeOrPending (fun _ => pendingMetrics "X" "Y") "SBER" "SBERP"
        [] 60 = pendingMetrics "SBER" "SBERP" ∧
    isAnalyzedPair
      (computeOrPending (fun _ => pendingMetrics "X" "Y") "SBER" "SBERP"
        [] 60) = false :=
  ⟨(computeOrPending_insufficient_data (fun _ => pendingMetrics "X" "Y")
      "SBER" "SBERP" [] 60 (by decide)).2.1,
   (computeOrPending_insufficient_data (fun _ => pendingMetrics "X" "Y")
      "SBER" "SBERP" [] 60 (by decide)).2.2.2.2.2⟩

/-- C8: the client request actually sent for an analysis refresh.  The
Charts page refresh (and the Pairs page re-analyze action) build their
request with a boolean in the third positional slot of
`api.analyzePair`, whose declared third parameter is `days : number =
90`; the request therefore carries `days = true` and no `force_refresh`
parameter at all, contradicting the documented
`analyzePair(symbol1, symbol2, force_refresh)` contract. -/
theorem chartsRefresh_sends_boolean_days :
    chartsRefreshParams "SBER" "SBERP" =
      [("symbol1", .str "SBER"), ("symbol2", .str "SBERP"),
       ("days", .jsbool true)] ∧
    ((chartsRefreshParams "SBER" "SBERP").map Prod.fst).contains
      "force_refresh" = false ∧
    pairsAnalyzeParams "SBER" "SBERP" =
      [("symbol1", .str "SBER"), ("symbol2", .str "SBERP"),
       ("days", .jsbool true)] ∧
    analyzePairParams "SBER" "SBERP" =
      [("symbol1", .str "SBER"), ("symbol2", .str "SBERP"),
       ("days", .num 90)] := by
  refine ⟨rfl, by decide, rfl, rfl⟩

/-- C9 counterexample: on the Charts page with no active pairs, the
Symbol 2 pick list is the hard-coded fallback menu, which contains the
currently selected Symbol 1 (the default `SBER`) instead of excluding
it. -/
theorem charts_fallback_contains_symbol1 :
    "SBER" ∈ chartsSymbol2Options [] "SBER" := by decide

/-- C9 (amended): `handleAnalyze` errors without mutating whenever the
two selected instruments share a `secid` (and any mutation it does issue
has distinct symbols); the PairAnalyzer Symbol 2 options always exclude
the selected Symbol 1; the Charts Symbol 2 options exclude Symbol 1
whenever the active-pairs symbol list is non-empty (the hard-coded
fallback menu shown with no active pairs is not filtered). -/
theorem pair_analysis_distinct_symbols
    (i1 i2 : Instrument) (instruments : List Instrument) (s1 : Instrument)
    (symbols : List String) (symbol1 : String)
    (heq : i1.secid = i2.secid) (hne : symbols ≠ []) :
    handleAnalyze (some i1) (some i2) =
      .showError "Please select different symbols" ∧
    (∀ (o1 o2 : Option Instrument) (a b : String),
        handleAnalyze o1 o2 = .mutate a b → a ≠ b) ∧
    (∀ i ∈ analyzerSymbol2Options instruments (some s1),
        i.secid ≠ s1.secid) ∧
    symbol1 ∉ chartsSymbol2Options symbols symbol1 := by
  refine ⟨?_, ?_, ?_, ?_⟩
  · simp [handleAnalyze, heq]
  · intro o1 o2 a b h
    rcases o1 with _ | j1 <;> rcases o2 with _ | j2 <;>
      simp [handleAnalyze] at h
    by_cases hc : j1.secid = j2.secid
    · simp [hc] at h
    · simp [hc] at h
      obtain ⟨ha, hb⟩ := h
      subst ha; subst hb; exact hc
  · intro i hi
    simp [analyzerSymbol2Options, List.mem_filter] at hi
    exact hi.2
  · have hlen : 0 < symbols.length := List.length_pos.mpr hne
    simp [chartsSymbol2Options, hlen, List.mem_filter]

/-- C9 witness: selecting the same instrument twice makes
`handleAnalyze` show the error, and with active pairs present the Charts
Symbol 2 options exclude the selected Symbol 1. -/
theorem pair_analysis_distinct_symbols_witness :
    handleAnalyze (some ⟨"SBER", "Sberbank", none, none⟩)
        (some ⟨"SBER", "Sberbank", none, none⟩) =
      .showError "Please select different symbols" ∧
    "SBER" ∉ chartsSymbol2Options ["SBER", "GAZP"] "SBER" :=
  ⟨(pair_analysis_distinct_symbols ⟨"SBER", "Sberbank", none, none⟩
      ⟨"SBER", "Sberbank", none, none⟩ [] ⟨"SBER", "Sberbank", none, none⟩
      ["SBER", "GAZP"] "SBER" rfl (by decide)).1,
   (pair_analysis_distinct_symbols ⟨"SBER", "Sberbank", none, none⟩
      ⟨"SBER", "Sberbank", none, none⟩ [] ⟨"SBER", "Sberbank", none, none⟩
      ["SBER", "GAZP"] "SBER" rfl (by decide)).2.2.2⟩

/-- C10: the pairs table Signal column uses fixed ±2 bounds; the label is
SHORT iff `current_zscore ≥ 2`, LONG iff `≤ -2`, NEUTRAL otherwise, and
the chip colour follows the same fixed bounds, with no dependence on any
configured entry threshold. -/
theorem pairsTable_signal_fixed_thresholds (pair : PairMetrics) :
    (pairsTableSignalLabel pair = "SHORT" ↔ pair.current_zscore ≥ 2) ∧
    (pairsTableSignalLabel pair = "LONG" ↔ pair.current_zscore ≤ -2) ∧
    (pairsTableSignalLabel pair = "NEUTRAL" ↔
      (-2 < pair.current_zscore ∧ pair.current_zscore < 2)) ∧
    (pairsTableSignalColor pair = "error" ↔ pair.current_zscore ≥ 2) ∧
    (pairsTableSignalColor pair = "success" ↔ pair.current_zscore ≤ -2) ∧
    (pairsTableSignalColor pair = "default" ↔
      (-2 < pair.current_zscore ∧ pair.current_zscore < 2)) := by
  unfold pairsTableSignalLabel pairsTableSignalColor getZScoreLabel
  refine ⟨?_, ?_, ?_, ?_, ?_, ?_⟩ <;>
    (split_ifs with h1 h2 <;> simp_all <;> linarith)

end Screener
